import Mathlib

/-!
Verification of the session-establishment and login-detection engine of the
every-thing-api repository, shallowly embedded in Lean 4.

The embedding covers:
* services/enhanced_cookie_injector.py : validate_cookie and
  inject_cookies_with_report (the cookie Normalizer and Injector);
* services/session_manager.py : _check_login_success (the Login-State
  Detector) and the session-record writes in login / oauth_login /
  inject_cookies (the Session Record Store);
* services/cookie_extractor.py : _wait_for_url_change_with_popups and
  _wait_for_login_completion (the Login-Completion Monitor).

Python dynamic values are modelled by the PyVal type; machine floats are
modelled by exact rationals; Python dicts holding cookie records are
modelled by structures with one Option PyVal field per key the source
reads.  Format strings in the source become inductive message
constructors carrying the interpolated data.
-/

/-- Characters the Python str.strip method removes (ASCII whitespace). -/
def isWs (c : Char) : Bool :=
  c == ' ' || c == '\t' || c == '\n' || c == '\r' || c == '\x0b' || c == '\x0c'

/-- ASCII lower-casing of one character, mirroring Python str.lower on the
ASCII range that all keywords and domains in the source use. -/
def pyLowerChar (c : Char) : Char :=
  if 65 ≤ c.toNat ∧ c.toNat ≤ 90 then Char.ofNat (c.toNat + 32) else c

/-- Python str.lower. -/
def pyLower (s : String) : String := ⟨s.data.map pyLowerChar⟩

/-- Drop ASCII whitespace from the front of a character list. -/
def lstripWs (l : List Char) : List Char := l.dropWhile isWs

/-- Drop ASCII whitespace from the back of a character list. -/
def rstripWs (l : List Char) : List Char := ((l.reverse.dropWhile isWs)).reverse

/-- Python str.strip with no arguments: whitespace off both ends. -/
def pyStrip (s : String) : String := ⟨rstripWs (lstripWs s.data)⟩

/-- Python str.lstrip applied to the dot character, as in lstrip in the
domain repair of validate_cookie. -/
def lstripDots (s : String) : String := ⟨s.data.dropWhile (· == '.')⟩

/-- Python str.count applied to the dot character. -/
def countDots (s : String) : Nat := s.data.count '.'

/-- Python str.startswith for a one-character pattern. -/
def startsWithDot (s : String) : Bool :=
  match s.data with
  | [] => false
  | c :: _ => c == '.'

/-- Python substring containment over character lists: the needle occurs
contiguously in the haystack.  An empty needle is contained everywhere,
as with the Python in operator on strings. -/
def subList (needle : List Char) : List Char → Bool
  | [] => needle.isEmpty
  | c :: rest => needle.isPrefixOf (c :: rest) || subList needle rest

/-- Python substring test: needle in haystack. -/
def strContains (hay needle : String) : Bool := subList needle.data hay.data

/-- Decimal digit list of a natural number, fuel-driven. -/
def natDigitsAux : Nat → Nat → List Char
  | 0, _ => []
  | fuel + 1, n =>
    if n < 10 then [Nat.digitChar n]
    else natDigitsAux fuel (n / 10) ++ [Nat.digitChar (n % 10)]

/-- Decimal rendering of a natural number. -/
def natStr (n : Nat) : String := ⟨natDigitsAux (n + 1) n⟩

/-- Decimal rendering of an integer. -/
def intStr : Int → String
  | .ofNat n => natStr n
  | .negSucc n => "-" ++ natStr (n + 1)

/-- Rendering of a rational standing in for the Python str of a number.
Only its identity on values already rendered matters to the claims; the
digits themselves never feed back into control flow of the source. -/
def numToStr (q : ℚ) : String :=
  intStr q.num ++ (if q.den = 1 then "" else "/" ++ natStr q.den)

/-- A dynamically typed Python value as stored in a cookie dict: a string,
a number (int or float, modelled exactly), a bool, None, or any other
object. -/
inductive PyVal
  | s (v : String)
  | n (v : ℚ)
  | b (v : Bool)
  | noneV
  | other
deriving DecidableEq

/-- Python truthiness of a PyVal. -/
def pyTruthy : PyVal → Bool
  | .s v => !(v == "")
  | .n v => !(v == 0)
  | .b v => v
  | .noneV => false
  | .other => true

/-- Python str applied to a PyVal. -/
def pyStr : PyVal → String
  | .s v => v
  | .n v => numToStr v
  | .b true => "True"
  | .b false => "False"
  | .noneV => "None"
  | .other => "<object>"

/-- Python isinstance of bool. -/
def isBool : PyVal → Bool
  | .b _ => true
  | _ => false

/-- Python isinstance of str. -/
def isStr : PyVal → Bool
  | .s _ => true
  | _ => false

/-- Python isinstance of (int, float), with its numeric value.  A Python
bool is an int, so True and False count as 1 and 0. -/
def numLike : PyVal → Option ℚ
  | .n q => some q
  | .b true => some 1
  | .b false => some 0
  | _ => none

/-- Truthiness of an optional dict entry: an absent key and a falsy value
both fail the Python test "field in cookie and cookie[field]". -/
def pyTruthyOpt : Option PyVal → Bool
  | none => false
  | some v => pyTruthy v

/-- A cookie record as passed to validate_cookie: a Python dict projected
onto the eight keys the function reads.  An absent key is none; a key
explicitly bound to Python None is some PyVal.noneV. -/
structure Cookie where
  name : Option PyVal := none
  value : Option PyVal := none
  domain : Option PyVal := none
  path : Option PyVal := none
  httpOnly : Option PyVal := none
  secure : Option PyVal := none
  expires : Option PyVal := none
  sameSite : Option PyVal := none
deriving DecidableEq

/-- The fixed_cookie dict that validate_cookie builds.  Keys the source
assigns only conditionally are Option fields; path, httpOnly and secure
are always assigned. -/
@[ext]
structure FixedCookie where
  name : Option String := none
  value : Option String := none
  domain : Option String := none
  path : String := "/"
  httpOnly : Bool := false
  secure : Bool := false
  expires : Option ℚ := none
  sameSite : Option String := none
deriving DecidableEq

/-- The error messages validate_cookie can append, one constructor per
format string of the source, carrying the interpolated data. -/
inductive ErrMsg
  | missingField (field : String)
  | missingDomain
  | badExpiresType
  | expired (hoursAgo : ℚ)
deriving DecidableEq

/-- The warning messages validate_cookie can append. -/
inductive WarnMsg
  | domainDot (domain : String)
  | badPath (path : String)
  | nonBool (field : String)
  | msToSeconds (original converted : ℚ)
  | badSameSite (value norm : String)
  | unknownSameSite (value : String)
  | oversize (size : Nat)
deriving DecidableEq

/-- The fix descriptions validate_cookie can append. -/
inductive FixMsg
  | addedDot (clean : String)
  | defaultPath
  | coercedBool (field : String)
  | dividedExpires
  | normalizedSameSite (norm : String)
  | removedSameSite
deriving DecidableEq

/-- The dict returned by validate_cookie.  fixedDict is the fixed_cookie
dict as built; fixed is the value under the "fixed" key, which the source
nulls out when any error was recorded. -/
structure ValidationResult where
  index : Nat
  original : Cookie
  fixedDict : FixedCookie
  fixed : Option FixedCookie
  valid : Bool
  errors : List ErrMsg
  warnings : List WarnMsg
  fixes : List FixMsg
  cookie_size : Nat
deriving DecidableEq

/-- The lookup table normalising unusual sameSite spellings
(enhanced_cookie_injector.py lines 126-132). -/
def sameSiteNormalize (s : String) : Option String :=
  if s = "lax" then some "Lax"
  else if s = "strict" then some "Strict"
  else if s = "none" then some "None"
  else if s = "no_restriction" then some "None"
  else if s = "unspecified" then some "Lax"
  else none

/-- The domain repair of validate_cookie (lines 56-70): str, strip,
lower, record whether a leading dot was supplied, strip leading dots, and
re-add a single dot when the cleaned domain has a separator or the caller
supplied a dot. -/
def normDomain (dom : PyVal) : String :=
  let domainStr := pyLower (pyStrip (pyStr dom))
  let hadDot := startsWithDot domainStr
  let clean := lstripDots domainStr
  if hadDot || 1 ≤ countDots clean then "." ++ clean else clean

/-- True when the domain repair emits the missing-leading-dot warning:
the subdomain branch was taken and the supplied domain had no dot. -/
def normDomainWarns (dom : PyVal) : Bool :=
  let domainStr := pyLower (pyStrip (pyStr dom))
  let hadDot := startsWithDot domainStr
  let clean := lstripDots domainStr
  !hadDot && 1 ≤ countDots clean

/-- Lines 37-41 of validate_cookie: the required-field check over name and
value.  A field that is absent or falsy records a missing-field error. -/
def requiredErrors (cookie : Cookie) : List ErrMsg :=
  (if pyTruthyOpt cookie.name then [] else [.missingField "name"]) ++
  (if pyTruthyOpt cookie.value then [] else [.missingField "value"])

/-- Lines 91-114 of validate_cookie: expiry repair.  Returns the errors,
warnings and fixes recorded plus the expires entry of the fixed dict. -/
def expiresRepair (now : ℚ) (e : Option PyVal) :
    List ErrMsg × List WarnMsg × List FixMsg × Option ℚ :=
  match e with
  | none => ([], [], [], none)
  | some .noneV => ([], [], [], none)
  | some v =>
    match numLike v with
    | some q =>
      let conv : Bool := (10 : ℚ) ^ 10 < q
      let q2 : ℚ := if conv then q / 1000 else q
      ((if 0 < q2 ∧ q2 < now then [.expired ((now - q2) / 3600)] else []),
       (if conv then [.msToSeconds q q2] else []),
       (if conv then [.dividedExpires] else []),
       some q2)
    | none => ([.badExpiresType], [], [], none)

/-- Lines 116-140 of validate_cookie: sameSite repair.  Returns the
warnings and fixes recorded plus the sameSite entry of the fixed dict. -/
def sameSiteRepair (ss : Option PyVal) :
    List WarnMsg × List FixMsg × Option String :=
  match ss with
  | none => ([], [], none)
  | some v =>
    if pyTruthy v then
      let s := pyStr v
      if s = "Lax" ∨ s = "Strict" ∨ s = "None" then ([], [], some s)
      else
        match sameSiteNormalize (pyLower s) with
        | some nrm => ([.badSameSite s nrm], [.normalizedSameSite nrm], some nrm)
        | none => ([.unknownSameSite s], [.removedSameSite], none)
    else ([], [], none)

/-- Lines 81-89 of validate_cookie for one boolean field: the fixed value
is the bool itself, or Python bool() of a non-boolean value. -/
def boolRepair (v : PyVal) : Bool :=
  if isBool v then v == .b true else pyTruthy v

/-- Shallow embedding of EnhancedCookieInjector.validate_cookie
(enhanced_cookie_injector.py lines 19-156).  The parameter now stands for
datetime.now().timestamp() sampled at line 104. -/
def validate_cookie (now : ℚ) (cookie : Cookie) (index : Nat := 0) :
    ValidationResult :=
  -- lines 37-41: required fields name and value
  let errsReq : List ErrMsg := requiredErrors cookie
  -- lines 43-49: extract name and value, stringify if no errors so far
  let fname : Option String :=
    if errsReq.isEmpty then some (pyStr (cookie.name.getD (.s ""))) else none
  let fvalue : Option String :=
    if errsReq.isEmpty then some (pyStr (cookie.value.getD (.s ""))) else none
  -- lines 51-70: domain
  let domain : PyVal := cookie.domain.getD (.s "")
  let errsDom : List ErrMsg :=
    if pyTruthyOpt cookie.domain then [] else [.missingDomain]
  let fdomain : Option String :=
    if pyTruthyOpt cookie.domain then some (normDomain domain) else none
  let warnsDom : List WarnMsg :=
    if pyTruthyOpt cookie.domain && normDomainWarns domain then
      [.domainDot (pyStr domain)] else []
  let fixesDom : List FixMsg :=
    if pyTruthyOpt cookie.domain && normDomainWarns domain then
      [.addedDot (lstripDots (pyLower (pyStrip (pyStr domain))))] else []
  -- lines 72-79: path
  let path : PyVal := cookie.path.getD (.s "/")
  let pathBad : Bool := !pyTruthy path || !isStr path
  let fpath : String := if pathBad then "/" else pyStr path
  let warnsPath : List WarnMsg :=
    if pathBad then [.badPath (pyStr path)] else []
  let fixesPath : List FixMsg := if pathBad then [.defaultPath] else []
  -- lines 81-89: boolean fields, httpOnly then secure
  let ho : PyVal := cookie.httpOnly.getD (.b false)
  let se : PyVal := cookie.secure.getD (.b false)
  let warnsBool : List WarnMsg :=
    (if isBool ho then [] else [.nonBool "httpOnly"]) ++
    (if isBool se then [] else [.nonBool "secure"])
  let fixesBool : List FixMsg :=
    (if isBool ho then [] else [.coercedBool "httpOnly"]) ++
    (if isBool se then [] else [.coercedBool "secure"])
  -- lines 91-114: expires
  let ep : List ErrMsg × List WarnMsg × List FixMsg × Option ℚ :=
    expiresRepair now cookie.expires
  -- lines 116-140: sameSite
  let sp : List WarnMsg × List FixMsg × Option String :=
    sameSiteRepair cookie.sameSite
  -- lines 142-145: size check on the fixed name and value
  let size : Nat := (fname.getD "").length + (fvalue.getD "").length
  let warnsSize : List WarnMsg := if 4096 < size then [.oversize size] else []
  let errors : List ErrMsg := errsReq ++ errsDom ++ ep.1
  let fixedDict : FixedCookie :=
    { name := fname, value := fvalue, domain := fdomain, path := fpath,
      httpOnly := boolRepair ho, secure := boolRepair se,
      expires := ep.2.2.2, sameSite := sp.2.2 }
  { index := index
    original := cookie
    fixedDict := fixedDict
    fixed := if errors.isEmpty then some fixedDict else none
    valid := errors.isEmpty
    errors := errors
    warnings := warnsDom ++ warnsPath ++ warnsBool ++ ep.2.1 ++ sp.1 ++ warnsSize
    fixes := fixesDom ++ fixesPath ++ fixesBool ++ ep.2.2.1 ++ sp.2.1
    cookie_size := size }

/-- Re-reading a fixed cookie dict as a cookie record, for revalidation:
strings stay strings, booleans booleans, the expiry stays numeric. -/
def fixedToCookie (f : FixedCookie) : Cookie :=
  { name := f.name.map .s, value := f.value.map .s, domain := f.domain.map .s,
    path := some (.s f.path), httpOnly := some (.b f.httpOnly),
    secure := some (.b f.secure), expires := f.expires.map .n,
    sameSite := f.sameSite.map .s }

/-- The reporting dict of inject_cookies_with_report.  The two
injection-failure shapes of the source (validation failures and
injection failures) are kept as lists; the error key of the early-return
path is dropped because no claim reads it. -/
structure InjectionReport where
  success : Bool
  cookies_processed : Nat
  cookies_valid : Nat
  cookies_injected : Nat
  cookies_failed : Nat
  validation_failures : List ValidationResult
  injection_failures : List FixedCookie
deriving DecidableEq

/-- Phase 1 of inject_cookies_with_report (lines 204-221): validate every
cookie with its enumeration index. -/
def validate_batch (now : ℚ) : Nat → List Cookie → List ValidationResult
  | _, [] => []
  | i, c :: rest => validate_cookie now c i :: validate_batch now (i + 1) rest

/-- Phase 3 of inject_cookies_with_report (lines 273-297): inject the
valid cookies one at a time.  The oracle inj reports whether the
automation driver accepted the i-th valid cookie; it returns the pair of
the injected count and the list of cookies whose injection failed. -/
def injectPhase (inj : Nat → Bool) : Nat → List FixedCookie →
    Nat × List FixedCookie
  | _, [] => (0, [])
  | i, c :: rest =>
    let r := injectPhase inj (i + 1) rest
    if inj i then (r.1 + 1, r.2) else (r.1, c :: r.2)

/-- Shallow embedding of
EnhancedCookieInjector.inject_cookies_with_report
(enhanced_cookie_injector.py lines 186-357).  Phase 2, the domain
bootstrap, only navigates pages and changes no count, so it does not
appear.  The oracle inj stands for the per-cookie outcome of
context.add_cookies. -/
def inject_cookies_with_report (now : ℚ) (inj : Nat → Bool)
    (cookies : List Cookie) : InjectionReport :=
  let validation_results := validate_batch now 0 cookies
  let valid_cookies := validation_results.filterMap (fun r => r.fixed)
  let invalid_cookies := validation_results.filter (fun r => !r.valid)
  if valid_cookies.isEmpty then
    { success := false
      cookies_processed := cookies.length
      cookies_valid := 0
      cookies_injected := 0
      cookies_failed := invalid_cookies.length
      validation_failures := invalid_cookies
      injection_failures := [] }
  else
    let ph := injectPhase inj 0 valid_cookies
    let injected_count := ph.1
    let failed_count := valid_cookies.length - injected_count
    { success := decide (0 < injected_count) && decide (failed_count = 0)
      cookies_processed := cookies.length
      cookies_valid := valid_cookies.length
      cookies_injected := injected_count
      cookies_failed := failed_count + invalid_cookies.length
      validation_failures := invalid_cookies
      injection_failures := ph.2 }

/-- The URL keywords of session_manager.py line 151 whose presence in the
lower-cased current URL marks a login or auth page. -/
def loginAuthKeywords : List String :=
  ["login", "signin", "sign-in", "auth/", "oauth/"]

/-- The logged-in indicator selectors of session_manager.py lines
159-186. -/
def loginIndicators : List String :=
  ["textarea", "input[type=\"text\"]", "div[role=\"textbox\"]",
   "textarea[placeholder*=\"Ask\"]", "textarea[placeholder*=\"Message\"]",
   "textarea[placeholder*=\"Type\"]", "div[class*=\"chat\"]",
   "div[class*=\"conversation\"]", "button[aria-label*=\"Send\"]",
   "button[aria-label*=\"Profile\"]", "button[aria-label*=\"User\"]",
   "button[aria-label*=\"Menu\"]", "[data-testid*=\"profile\"]",
   "[data-testid*=\"user\"]", "[data-testid*=\"menu\"]",
   "nav", "aside", "[class*=\"sidebar\"]", "[class*=\"navigation\"]",
   "img[alt*=\"avatar\"]", "img[alt*=\"profile\"]", "[class*=\"avatar\"]"]

/-- The sign-in button selectors of session_manager.py lines 199-205. -/
def loginButtonSelectors : List String :=
  ["button:has-text(\"Sign in\")", "button:has-text(\"Log in\")",
   "a:has-text(\"Sign in\")", "a:has-text(\"Log in\")",
   "button:has-text(\"Login\")"]

/-- The app-interface URL keywords of session_manager.py line 219. -/
def appishKeywords : List String :=
  ["chat", "conversation", "app", "dashboard", "home", "grok.com"]

/-- The session-cookie name keywords of session_manager.py line 238. -/
def sessionCookieKeywords : List String :=
  ["session", "auth", "token", "sid", "_ga", "ct0", "kdt"]

/-- Shallow embedding of SessionManager._check_login_success
(session_manager.py lines 139-255).  url is page.url; hasSel and btnSel
are oracles for whether page.wait_for_selector finds the given selector;
cookieNames lists the names of the cookies of the owning context. -/
def check_login_success (url : String) (hasSel btnSel : String → Bool)
    (cookieNames : List String) : Bool :=
  -- lines 150-153: login and auth pages are never logged in
  if loginAuthKeywords.any (fun kw => strContains (pyLower url) kw) then false
  -- lines 155-195: app-interface elements on the trusted domain
  else if (strContains url "grok.com" || strContains url "grok.x.ai") &&
      loginIndicators.any hasSel then true
  -- lines 197-216: visible sign-in controls mean not logged in
  else if loginButtonSelectors.any btnSel then false
  -- lines 218-226: app-like URL with a nonempty cookie jar
  else if appishKeywords.any (fun kw => strContains (pyLower url) kw) &&
      decide (0 < cookieNames.length) then true
  -- lines 228-243: session-keyword cookies
  else if cookieNames.any (fun n =>
      sessionCookieKeywords.any (fun kw => strContains (pyLower n) kw)) then
    true
  -- lines 245-248: at least three cookies on the trusted domain
  else if decide (3 ≤ cookieNames.length) && strContains url "grok.com" then
    true
  else false

/-- One open page or popup window, as the monitor sees it after its
valid-page filter: the url and the number of elements the chat-interface
selector query returns. -/
structure Surface where
  url : String
  chatEls : Nat
deriving DecidableEq

/-- The login and auth URL keywords of cookie_extractor.py line 554. -/
def monitorLoginKeywords : List String := ["login", "signin", "auth/", "oauth/"]

/-- Line 553-554 of cookie_extractor.py: the page URL marks a login
page. -/
def monitorIsLoginPage (url : String) : Bool :=
  monitorLoginKeywords.any (fun kw => strContains (pyLower url) kw)

/-- Lines 542-566 of cookie_extractor.py for one page: on the trusted
domains, chat-interface elements outside a login page mean logged in.
The two successive detection tests of the source (lines 556 and 563)
have the same condition, so one test embeds both. -/
def page_login_detected (p : Surface) : Bool :=
  (strContains p.url "grok.com" || strContains p.url "x.ai") &&
  (decide (0 < p.chatEls) && !monitorIsLoginPage p.url)

/-- One tick of the monitor as the environment presents it: the stop flag
as sampled by the top-of-tick check, whether self.context is set, an
exception raised inside the tick body if any, the surfaces enumerated
from the context, and whether self.page is open (read by the caller when
the wait ends at this tick). -/
structure TickObs where
  stop : Bool
  ctxAlive : Bool
  exc : Option String
  surfaces : List Surface
  pageOpen : Bool

/-- The max_checks bound of _wait_for_url_change_with_popups (line 507). -/
def max_checks : Nat := 600

/-- Observable events of one monitor run, tagged with their 1-based tick:
the top-of-tick stop-flag poll, the page scan with its detector
evaluation, and the completion of the one-second sleep that ends the
tick. -/
inductive MEvent
  | stopCheck (t : Nat)
  | scan (t : Nat)
  | sleepDone (t : Nat)
deriving DecidableEq

/-- Why _wait_for_url_change_with_popups returned (it returns None on
every path; the paths are distinguishable by control flow). -/
inductive InnerReason
  | stopped
  | noContext
  | found
  | closedErr
  | exhausted
deriving DecidableEq

/-- The outcome the caller of the monitor distinguishes, refining the
boolean _wait_for_login_completion returns. -/
inductive MStatus
  | detected
  | cancelled
  | ctx_closed
  | timeout
  | fallthrough_ok
deriving DecidableEq

/-- Result of one monitor run: the boolean _wait_for_login_completion
returns, the exit path taken, the number of ticks whose top-of-tick check
ran, and the event trace. -/
structure MonitorResult where
  success : Bool
  status : MStatus
  ticks : Nat
  trace : List MEvent
deriving DecidableEq

/-- Lines 493-496 of cookie_extractor.py: after the inner loop returns at
tick t, the caller re-reads the stop flag and the page state and maps
them to the boolean outcome. -/
def monitor_finish (env : Nat → TickObs) (t : Nat) (ticks : Nat)
    (reason : InnerReason) (tr : List MEvent) : MonitorResult :=
  if (env t).stop then
    { success := false, status := .cancelled, ticks := ticks, trace := tr }
  else if !(env t).pageOpen then
    { success := false, status := .ctx_closed, ticks := ticks, trace := tr }
  else if reason = .found then
    { success := true, status := .detected, ticks := ticks, trace := tr }
  else
    { success := true, status := .fallthrough_ok, ticks := ticks, trace := tr }

/-- The tick loop of _wait_for_url_change_with_popups (lines 512-601)
under the asyncio.wait_for budget of _wait_for_login_completion (line
485).  checksLeft counts the remaining iterations of the range bound;
timeLeft counts the remaining whole seconds of the wait_for budget, one
consumed per completed sleep; t is the 1-based tick.  When the budget
runs out before the loop returns, asyncio.wait_for raises TimeoutError,
which line 486 catches and reports as an ordinary False outcome. -/
def monitor_run (env : Nat → TickObs) : Nat → Nat → Nat → MonitorResult
  | _, 0, t =>
    { success := false, status := .timeout, ticks := t - 1, trace := [] }
  | 0, _ + 1, t => monitor_finish env t (t - 1) .exhausted []
  | cl + 1, tl + 1, t =>
    let o := env t
    if o.stop then monitor_finish env t t .stopped [.stopCheck t]
    else if !o.ctxAlive then monitor_finish env t t .noContext [.stopCheck t]
    else
      match o.exc with
      | some msg =>
        if strContains (pyLower msg) "closed" then
          monitor_finish env t t .closedErr [.stopCheck t, .scan t]
        else
          let r := monitor_run env cl tl (t + 1)
          { r with trace := .stopCheck t :: .scan t :: .sleepDone t :: r.trace }
      | none =>
        if (o.surfaces.any page_login_detected) then
          monitor_finish env t t .found [.stopCheck t, .scan t]
        else
          let r := monitor_run env cl tl (t + 1)
          { r with trace := .stopCheck t :: .scan t :: .sleepDone t :: r.trace }

/-- Shallow embedding of _wait_for_login_completion (cookie_extractor.py
lines 482-496) with a budget of timeout whole ticks. -/
def wait_for_login_completion (timeout : Nat) (env : Nat → TickObs) :
    MonitorResult :=
  monitor_run env max_checks timeout 1

/-- A primitive file-system operation on the session file. -/
inductive FsOp
  | openTrunc
  | writeAll (s : String)
  | close
deriving DecidableEq

/-- Effect of one operation on the session-file content (none: the file
does not exist). -/
def apply_fs_op : Option String → FsOp → Option String
  | _, .openTrunc => some ""
  | c, .writeAll s => some ((c.getD "") ++ s)
  | c, .close => c

/-- Replay a list of file operations. -/
def run_fs (init : Option String) (ops : List FsOp) : Option String :=
  ops.foldl apply_fs_op init

/-- The operations the session-record writes perform: session_manager.py
lines 127-128, 400-401 and 606-607 each run
open(self.session_file, "w") followed by json.dump(session_data, f),
that is: truncate in place, write the serialized record, close.  No
temporary file and no rename are involved. -/
def session_save_steps (record : String) : List FsOp :=
  [.openTrunc, .writeAll record, .close]

/-- The session-file content seen if the process dies after the first k
operations of a save. -/
def crash_state (old : Option String) (record : String) (k : Nat) :
    Option String :=
  run_fs old ((session_save_steps record).take k)

/-- The events of k full (undetected, unstopped) ticks starting at tick a. -/
def full_ticks (a : Nat) : Nat → List MEvent
  | 0 => []
  | k + 1 => .stopCheck a :: .scan a :: .sleepDone a :: full_ticks (a + 1) k

/-- A tick during which nothing ends the monitor loop: the stop flag is
down, the context is alive, no exception fires, and the detector is
negative on every surface. -/
def goodTick (o : TickObs) : Prop :=
  o.stop = false ∧ o.ctxAlive = true ∧ o.exc = none ∧
  o.surfaces.any page_login_detected = false

/-- A record with name and domain present but an empty value. -/
def exC1 : Cookie :=
  { name := some (.s "n"), value := some (.s ""),
    domain := some (.s "example.com") }

/-- An environment whose stop flag goes up during the sleep of tick 1, so
the top-of-tick poll sees it from tick 2 on; everything else is quiet. -/
def envC3 : Nat → TickObs := fun t =>
  { stop := decide (2 ≤ t), ctxAlive := true, exc := none, surfaces := [],
    pageOpen := true }

/-- An environment where nothing ever happens: no stop, no detection. -/
def envC4 : Nat → TickObs := fun _ =>
  { stop := false, ctxAlive := true, exc := none, surfaces := [],
    pageOpen := true }

/-- A record carrying a millisecond expiry of 1.75e12. -/
def exC5w : Cookie :=
  { name := some (.s "a"), value := some (.s "b"),
    domain := some (.s "localhost"), expires := some (.n 1750000000000) }

/-- A record carrying the session-cookie expiry 0. -/
def exC5cex : Cookie :=
  { name := some (.s "a"), value := some (.s "b"),
    domain := some (.s "localhost"), expires := some (.n 0) }

/-- A record whose name has 2000 characters and whose value has 3000, so
the name passes 1024 and the combined size 5000 passes 4096. -/
def exC6 : Cookie :=
  { name := some (.s ⟨List.replicate 2000 'a'⟩),
    value := some (.s ⟨List.replicate 3000 'b'⟩),
    domain := some (.s "localhost") }

/-- A record whose numeric expiry 1e14 stays above 1e10 even after one
division by 1000. -/
def exC9 : Cookie :=
  { name := some (.s "a"), value := some (.s "b"),
    domain := some (.s "localhost"), expires := some (.n 100000000000000) }

/-- The fixed record validate_cookie produces for exC9 at reference time
0: the expiry came down to 1e11, which is still in the millisecond
range. -/
def exC9f : FixedCookie :=
  { name := some "a", value := some "b", domain := some "localhost",
    path := "/", httpOnly := false, secure := false,
    expires := some 100000000000, sameSite := none }

/-- A record with a string name and value on the bare domain localhost,
used to study the size check with the sizes kept abstract. -/
def mkStrCookie (na va : String) : Cookie :=
  { name := some (.s na), value := some (.s va),
    domain := some (.s "localhost") }

/-- A small record that validates cleanly: subdomain-eligible domain,
seconds-range expiry in the future of the reference time 3. -/
def exC9w : Cookie :=
  { name := some (.s "a"), value := some (.s "b"),
    domain := some (.s "grok.com"), expires := some (.n 5) }

/-- The fixed record validate_cookie produces for exC9w at reference
time 3. -/
def exC9wf : FixedCookie :=
  { name := some "a", value := some "b", domain := some ".grok.com",
    path := "/", httpOnly := false, secure := false,
    expires := some 5, sameSite := none }

/-- A record whose expires entry is a string. -/
def exC10 : Cookie :=
  { name := some (.s "a"), value := some (.s "b"),
    domain := some (.s "localhost"), expires := some (.s "tomorrow") }
lemma validate_errors (now : ℚ) (c : Cookie) (i : Nat) :
    (validate_cookie now c i).errors =
      requiredErrors c ++
      (if pyTruthyOpt c.domain then [] else [.missingDomain]) ++
      (expiresRepair now c.expires).1 := rfl

lemma validate_valid (now : ℚ) (c : Cookie) (i : Nat) :
    (validate_cookie now c i).valid = (validate_cookie now c i).errors.isEmpty := rfl

lemma validate_fixed (now : ℚ) (c : Cookie) (i : Nat) :
    (validate_cookie now c i).fixed =
      (if (validate_cookie now c i).errors.isEmpty
        then some (validate_cookie now c i).fixedDict else none) := rfl

lemma validate_fixedDict (now : ℚ) (c : Cookie) (i : Nat) :
    (validate_cookie now c i).fixedDict =
      { name := if (requiredErrors c).isEmpty
          then some (pyStr (c.name.getD (.s ""))) else none
        value := if (requiredErrors c).isEmpty
          then some (pyStr (c.value.getD (.s ""))) else none
        domain := if pyTruthyOpt c.domain
          then some (normDomain (c.domain.getD (.s ""))) else none
        path := if !pyTruthy (c.path.getD (.s "/")) || !isStr (c.path.getD (.s "/"))
          then "/" else pyStr (c.path.getD (.s "/"))
        httpOnly := boolRepair (c.httpOnly.getD (.b false))
        secure := boolRepair (c.secure.getD (.b false))
        expires := (expiresRepair now c.expires).2.2.2
        sameSite := (sameSiteRepair c.sameSite).2.2 } := rfl

lemma validate_warnings (now : ℚ) (c : Cookie) (i : Nat) :
    (validate_cookie now c i).warnings =
      (if pyTruthyOpt c.domain && normDomainWarns (c.domain.getD (.s "")) then
        [.domainDot (pyStr (c.domain.getD (.s "")))] else []) ++
      (if !pyTruthy (c.path.getD (.s "/")) || !isStr (c.path.getD (.s "/")) then
        [.badPath (pyStr (c.path.getD (.s "/")))] else []) ++
      ((if isBool (c.httpOnly.getD (.b false)) then [] else [.nonBool "httpOnly"]) ++
       (if isBool (c.secure.getD (.b false)) then [] else [.nonBool "secure"])) ++
      (expiresRepair now c.expires).2.1 ++
      (sameSiteRepair c.sameSite).1 ++
      (if 4096 < (validate_cookie now c i).cookie_size then
        [.oversize ((validate_cookie now c i).cookie_size)] else []) := rfl

lemma validate_cookie_size (now : ℚ) (c : Cookie) (i : Nat) :
    (validate_cookie now c i).cookie_size =
      (((validate_cookie now c i).fixedDict.name).getD "").length +
      (((validate_cookie now c i).fixedDict.value).getD "").length := rfl

/-- Claim C2, counterexample: with record OLD on disk and NEW being
written, dying right after the truncating open leaves the file empty:
neither the previous record nor the new one survives, so the save is not
an atomic replace. -/
theorem C2_counterexample :
    crash_state (some "OLD") "NEW" 1 ≠ some "OLD" ∧
    crash_state (some "OLD") "NEW" 1 ≠ some "NEW" ∧
    crash_state (some "OLD") "NEW" 1 = some "" := by decide

/-- Claim C2, amended: each successful login path writes the session
record in place, truncating the backing file and then writing, with no
temporary file and no rename; the intermediate state after the truncation
is the empty file, so only an interruption before the open or after the
write preserves a valid record. -/
theorem C2_inplace_write (old : Option String) (record : String) :
    crash_state old record 0 = old ∧
    crash_state old record 1 = some "" ∧
    crash_state old record 2 = some record ∧
    crash_state old record 3 = some record ∧
    run_fs old (session_save_steps record) = some record := by
  refine ⟨rfl, rfl, ?_, ?_, ?_⟩ <;>
    simp [crash_state, run_fs, session_save_steps, apply_fs_op]

/-- Claim C3, counterexample: with the stop flag raised during the sleep
of tick 1 of a 10-tick budget, the run does end cancelled, but only
after the full one-second sleep of tick 1 has completed and the
top-of-tick poll of tick 2 has run, contradicting the claimed immediate
end with no tick 2. -/
theorem C3_counterexample :
    ¬ ((wait_for_login_completion 10 envC3).status = .cancelled ∧
       MEvent.sleepDone 1 ∉ (wait_for_login_completion 10 envC3).trace ∧
       MEvent.stopCheck 2 ∉ (wait_for_login_completion 10 envC3).trace) := by
  decide

/-- Running the monitor through k quiet ticks only accumulates trace: the
outcome is whatever the loop decides from tick t+k on, with both fuels
spent k times. -/
lemma monitor_run_steps (env : Nat → TickObs) (k : Nat) :
    ∀ cl tl t, (∀ i, t ≤ i → i < t + k → goodTick (env i)) → k ≤ cl → k ≤ tl →
    monitor_run env cl tl t =
      { monitor_run env (cl - k) (tl - k) (t + k) with
        trace := full_ticks t k ++
          (monitor_run env (cl - k) (tl - k) (t + k)).trace } := by
  induction k with
  | zero =>
    intro cl tl t _ _ _
    simp [full_ticks]
  | succ k ih =>
    intro cl tl t h hcl htl
    obtain ⟨hs, hc, he, hd⟩ := h t (Nat.le_refl t) (by omega)
    rcases cl with _ | cl
    · omega
    rcases tl with _ | tl
    · omega
    have step : monitor_run env (cl + 1) (tl + 1) t =
        { monitor_run env cl tl (t + 1) with
          trace := .stopCheck t :: .scan t :: .sleepDone t ::
            (monitor_run env cl tl (t + 1)).trace } := by
      simp only [monitor_run, hs, hc, he, hd]
      simp
    rw [step, ih cl tl (t + 1) (fun i h1 h2 => h i (by omega) (by omega))
      (by omega) (by omega)]
    have e1 : cl + 1 - (k + 1) = cl - k := by omega
    have e2 : tl + 1 - (k + 1) = tl - k := by omega
    have e3 : t + (k + 1) = (t + 1) + k := by omega
    rw [e1, e2, e3]
    simp [full_ticks]

/-- Claim C4: when the detector is negative on every surface at every
tick and nothing else disturbs the monitor, waitForLogin with a budget of
timeoutSeconds ticks runs exactly that many ticks and resolves to the
timeout outcome as an ordinary value: the TimeoutError of the inner wait
is caught and reported, never escalated. -/
theorem C4_timeout_after_budget (T : Nat) (env : Nat → TickObs)
    (hT : T ≤ max_checks)
    (hdet : ∀ t p, p ∈ (env t).surfaces → page_login_detected p = false)
    (hquiet : ∀ t, (env t).stop = false ∧ (env t).ctxAlive = true ∧
      (env t).exc = none) :
    wait_for_login_completion T env =
      { success := false, status := .timeout, ticks := T,
        trace := full_ticks 1 T } := by
  have hgood : ∀ i, goodTick (env i) := by
    intro i
    obtain ⟨h1, h2, h3⟩ := hquiet i
    exact ⟨h1, h2, h3, List.any_eq_false.mpr fun p hp => by
      simp [hdet i p hp]⟩
  unfold wait_for_login_completion
  rw [monitor_run_steps env T max_checks T 1 (fun i _ _ => hgood i) hT
    (Nat.le_refl T)]
  simp only [Nat.sub_self]
  simp [monitor_run]

/-- Claim C4, witness at a 2-tick budget and an always-quiet
environment. -/
theorem C4_witness :
    wait_for_login_completion 2 envC4 =
      { success := false, status := .timeout, ticks := 2,
        trace := full_ticks 1 2 } :=
  C4_timeout_after_budget 2 envC4 (by decide)
    (fun _ p hp => absurd hp (List.not_mem_nil p))
    (fun _ => ⟨rfl, rfl, rfl⟩)

/-- Claim C3, amended: the stop flag is polled only at the top of each
tick, so a flag raised during tick n (first visible to the poll of tick
n+1) lets the current one-second sleep finish; the loop then exits
cancelled at the start of tick n+1, whose only event is the flag poll, so
no detection work happens after tick n. -/
theorem C3_cancel_next_tick (T n : Nat) (env : Nat → TickObs)
    (hT : n + 1 ≤ T) (hTm : T ≤ max_checks)
    (hgood : ∀ i, 1 ≤ i → i ≤ n → goodTick (env i))
    (hstop : (env (n + 1)).stop = true) :
    wait_for_login_completion T env =
      { success := false, status := .cancelled, ticks := n + 1,
        trace := full_ticks 1 n ++ [.stopCheck (n + 1)] } := by
  unfold wait_for_login_completion
  rw [monitor_run_steps env n max_checks T 1
    (fun i h1 h2 => hgood i h1 (by omega)) (by omega) (by omega)]
  obtain ⟨cl, hcl⟩ : ∃ cl, max_checks - n = cl + 1 :=
    ⟨max_checks - n - 1, by simp [max_checks] at hTm ⊢; omega⟩
  obtain ⟨tl, htl⟩ : ∃ tl, T - n = tl + 1 := ⟨T - n - 1, by omega⟩
  rw [hcl, htl]
  have h1n : 1 + n = n + 1 := by omega
  rw [h1n]
  simp [monitor_run, hstop, monitor_finish]

/-- Claim C3, witness: flag raised during tick 1 of a 10-tick budget. -/
theorem C3_witness :
    wait_for_login_completion 10 envC3 =
      { success := false, status := .cancelled, ticks := 2,
        trace := full_ticks 1 1 ++ [.stopCheck 2] } :=
  C3_cancel_next_tick 10 1 envC3 (by decide) (by decide)
    (fun i h1 h2 => by
      have : i = 1 := by omega
      subst this
      exact ⟨by decide, rfl, rfl, rfl⟩)
    (by decide)

/-- Claim C8: whenever the lower-cased current URL contains one of the
login or auth keywords the claim lists, the detector answers false
before it consults any element oracle or the cookie jar, for every
combination of element answers and cookie names: the negative URL rule
is evaluated first and overrides every positive signal. -/
theorem C8_login_url_wins (url : String) (hasSel btnSel : String → Bool)
    (cookieNames : List String)
    (h : strContains (pyLower url) "login" = true ∨
         strContains (pyLower url) "signin" = true ∨
         strContains (pyLower url) "auth/" = true ∨
         strContains (pyLower url) "oauth/" = true) :
    check_login_success url hasSel btnSel cookieNames = false := by
  have hk : loginAuthKeywords.any (fun kw => strContains (pyLower url) kw) = true := by
    rcases h with h | h | h | h <;> simp [loginAuthKeywords, h]
  simp [check_login_success, hk]

/-- Claim C8, witness: a login URL on the trusted domain with every
element oracle answering positively and a session-keyword cookie jar is
still classified as not logged in. -/
theorem C8_witness :
    check_login_success "https://grok.com/login" (fun _ => true)
      (fun _ => true) ["session_id", "ct0", "auth_token"] = false :=
  C8_login_url_wins "https://grok.com/login" (fun _ => true) (fun _ => true)
    ["session_id", "ct0", "auth_token"] (Or.inl (by decide))

/-- The error component of the expiry repair is empty, the invalid-type
error alone, or one expired error alone. -/
lemma expiresRepair_fst_shape (now : ℚ) (e : Option PyVal) :
    (expiresRepair now e).1 = [] ∨
    (expiresRepair now e).1 = [.badExpiresType] ∨
    ∃ h, (expiresRepair now e).1 = [.expired h] := by
  rcases e with _ | v
  · simp [expiresRepair]
  · rcases v with s | q | b | _ | _
    · simp [expiresRepair, numLike]
    · simp only [expiresRepair, numLike]
      split <;> split <;>
        first
          | exact Or.inl rfl
          | exact Or.inr (Or.inr ⟨_, rfl⟩)
    · rcases b with _ | _ <;>
        (simp only [expiresRepair, numLike]
         split <;> split <;>
           first
             | exact Or.inl rfl
             | exact Or.inr (Or.inr ⟨_, rfl⟩))
    · simp [expiresRepair]
    · simp [expiresRepair, numLike]

/-- The expiry repair records no missing-field and no missing-domain
error, whatever the expires entry holds. -/
lemma expiresRepair_no_missing (now : ℚ) (e : Option PyVal) :
    (∀ f, ErrMsg.missingField f ∉ (expiresRepair now e).1) ∧
    ErrMsg.missingDomain ∉ (expiresRepair now e).1 := by
  rcases expiresRepair_fst_shape now e with h | h | ⟨x, h⟩ <;>
    rw [h] <;> simp

/-- A string-typed (or otherwise non-numeric, non-None) expires entry
records exactly the invalid-type error. -/
lemma expiresRepair_badtype (now : ℚ) (v : PyVal) (hv : v ≠ .noneV)
    (hn : numLike v = none) :
    expiresRepair now (some v) = ([.badExpiresType], [], [], none) := by
  rcases v with s | q | b | _ | _ <;> simp_all [expiresRepair, numLike]

/-- Claim C10: validate_cookie is total by construction; the returned
structure always reports valid exactly when the error list is empty and
carries a fixed record exactly then, and a malformed (non-numeric,
non-None) expires entry becomes a recorded invalid-type error that makes
the record invalid, rather than an exception. -/
theorem C10_total (now : ℚ) (c : Cookie) (i : Nat) :
    ((validate_cookie now c i).valid =
      (validate_cookie now c i).errors.isEmpty) ∧
    ((validate_cookie now c i).fixed.isSome = (validate_cookie now c i).valid) ∧
    (∀ v, c.expires = some v → v ≠ .noneV → numLike v = none →
      ErrMsg.badExpiresType ∈ (validate_cookie now c i).errors ∧
      (validate_cookie now c i).valid = false) := by
  refine ⟨rfl, ?_, ?_⟩
  · rw [validate_fixed, validate_valid]
    rcases h : (validate_cookie now c i).errors.isEmpty <;> simp [h]
  · intro v hv hvn hnum
    have hmem : ErrMsg.badExpiresType ∈ (validate_cookie now c i).errors := by
      rw [validate_errors, hv, expiresRepair_badtype now v hvn hnum]
      simp
    refine ⟨hmem, ?_⟩
    rw [validate_valid]
    rcases h : (validate_cookie now c i).errors.isEmpty
    · rfl
    · rw [List.isEmpty_iff] at h
      rw [h] at hmem
      cases hmem

/-- Claim C10, witness: a record whose expires entry is the string
tomorrow validates to an invalid result carrying the invalid-type error,
with no exception path. -/
theorem C10_witness :
    ErrMsg.badExpiresType ∈ (validate_cookie 0 exC10 0).errors ∧
    (validate_cookie 0 exC10 0).valid = false :=
  (C10_total 0 exC10 0).2.2 (.s "tomorrow") rfl (by decide) rfl

/-- Any recorded error makes the result invalid. -/
lemma valid_false_of_mem (now : ℚ) (c : Cookie) (i : Nat) (x : ErrMsg)
    (hx : x ∈ (validate_cookie now c i).errors) :
    (validate_cookie now c i).valid = false := by
  rw [validate_valid]
  rcases h : (validate_cookie now c i).errors.isEmpty
  · rfl
  · rw [List.isEmpty_iff] at h
    rw [h] at hx
    cases hx

/-- The required-field check records only missing-field errors. -/
lemma requiredErrors_no_expired (c : Cookie) (h : ℚ) :
    ErrMsg.expired h ∉ requiredErrors c := by
  unfold requiredErrors
  split <;> split <;> simp

/-- Claim C1, amended: an empty value is a blocking missing-field error,
exactly like a missing name; a record with truthy name and domain but an
empty value is invalid with the missing-value error and without either of
the other two missing-field errors. -/
theorem C1_empty_value_is_error (now : ℚ) (c : Cookie) (i : Nat)
    (hn : pyTruthyOpt c.name = true)
    (hd : pyTruthyOpt c.domain = true)
    (hv : c.value = some (.s "")) :
    (validate_cookie now c i).valid = false ∧
    ErrMsg.missingField "value" ∈ (validate_cookie now c i).errors ∧
    ErrMsg.missingField "name" ∉ (validate_cookie now c i).errors ∧
    ErrMsg.missingDomain ∉ (validate_cookie now c i).errors := by
  have hreq : requiredErrors c = [.missingField "value"] := by
    unfold requiredErrors
    rw [hn, hv]
    simp [pyTruthyOpt, pyTruthy]
  have herr : (validate_cookie now c i).errors =
      .missingField "value" :: (expiresRepair now c.expires).1 := by
    rw [validate_errors, hreq, hd]
    simp
  obtain ⟨hnm, hnd⟩ := expiresRepair_no_missing now c.expires
  have hmem : ErrMsg.missingField "value" ∈ (validate_cookie now c i).errors := by
    rw [herr]
    exact List.mem_cons_self _ _
  refine ⟨valid_false_of_mem now c i _ hmem, hmem, ?_, ?_⟩
  · rw [herr]
    simp [hnm "name"]
  · rw [herr]
    simp [hnd]

/-- Claim C1, counterexample: name n, domain example.com, empty value.
The claim promises a valid result with a warning; the code records the
missing-value error and rejects the record. -/
theorem C1_counterexample :
    (validate_cookie 0 exC1 0).valid = false ∧
    (validate_cookie 0 exC1 0).errors = [ErrMsg.missingField "value"] := by
  decide

/-- Claim C1, witness for the amended statement at the same record. -/
theorem C1_witness :
    (validate_cookie 0 exC1 0).valid = false ∧
    ErrMsg.missingField "value" ∈ (validate_cookie 0 exC1 0).errors ∧
    ErrMsg.missingField "name" ∉ (validate_cookie 0 exC1 0).errors ∧
    ErrMsg.missingDomain ∉ (validate_cookie 0 exC1 0).errors :=
  C1_empty_value_is_error 0 exC1 0 (by decide) (by decide) rfl

/-- The expiry repair on a numeric entry, with the converted value
written out. -/
lemma expiresRepair_num (now q : ℚ) :
    expiresRepair now (some (.n q)) =
      ((if 0 < (if (10:ℚ)^10 < q then q / 1000 else q) ∧
           (if (10:ℚ)^10 < q then q / 1000 else q) < now
        then [.expired ((now - (if (10:ℚ)^10 < q then q / 1000 else q)) / 3600)]
        else []),
       (if (10:ℚ)^10 < q
        then [.msToSeconds q (if (10:ℚ)^10 < q then q / 1000 else q)] else []),
       (if (10:ℚ)^10 < q then [.dividedExpires] else []),
       some (if (10:ℚ)^10 < q then q / 1000 else q)) := by
  simp only [expiresRepair, numLike]
  by_cases hc : (10:ℚ)^10 < q <;> simp [hc]

/-- Claim C5, amended: for a numeric expires q the fixed entry is exactly
q/1000 when q exceeds 1e10 (with the conversion warning) and q otherwise;
a positive seconds value earlier than now records the expired error and
invalidates the record; a seconds value of at most 0 records nothing at
all: the code keeps the value, stays valid on that account, and emits no
session-cookie warning. -/
theorem C5_expiry_repair (now : ℚ) (c : Cookie) (i : Nat) (q q2 : ℚ)
    (he : c.expires = some (.n q))
    (hq2 : q2 = if (10:ℚ)^10 < q then q / 1000 else q) :
    (validate_cookie now c i).fixedDict.expires = some q2 ∧
    ((10:ℚ)^10 < q →
      WarnMsg.msToSeconds q q2 ∈ (validate_cookie now c i).warnings) ∧
    (0 < q2 → q2 < now →
      ErrMsg.expired ((now - q2) / 3600) ∈ (validate_cookie now c i).errors ∧
      (validate_cookie now c i).valid = false) ∧
    (q2 ≤ 0 →
      (expiresRepair now c.expires).1 = [] ∧
      ∀ h, ErrMsg.expired h ∉ (validate_cookie now c i).errors) := by
  have hep : expiresRepair now c.expires =
      ((if 0 < q2 ∧ q2 < now then [.expired ((now - q2) / 3600)] else []),
       (if (10:ℚ)^10 < q then [.msToSeconds q q2] else []),
       (if (10:ℚ)^10 < q then [.dividedExpires] else []),
       some q2) := by
    rw [he, expiresRepair_num, ← hq2]
  refine ⟨?_, ?_, ?_, ?_⟩
  · rw [validate_fixedDict]
    simp [hep]
  · intro hc
    rw [validate_warnings, hep]
    simp [hc]
  · intro h0 hlt
    have hmem : ErrMsg.expired ((now - q2) / 3600) ∈
        (validate_cookie now c i).errors := by
      rw [validate_errors, hep]
      simp [h0, hlt]
    exact ⟨hmem, valid_false_of_mem now c i _ hmem⟩
  · intro hle
    have h1 : (expiresRepair now c.expires).1 = [] := by
      rw [hep]
      simp only []
      rw [if_neg]
      rintro ⟨h1, _⟩
      linarith
    refine ⟨h1, fun h => ?_⟩
    rw [validate_errors, h1]
    simp [requiredErrors_no_expired c h]

/-- Claim C5, counterexample: a record with expires 0 validates with an
empty warning list, so no session-cookie warning exists, though the
record stays valid and keeps the value. -/
theorem C5_counterexample :
    (validate_cookie 0 exC5cex 0).warnings = [] ∧
    (validate_cookie 0 exC5cex 0).valid = true ∧
    (validate_cookie 0 exC5cex 0).fixedDict.expires = some 0 := by
  decide

/-- Claim C5, witness: expires 1.75e12 at reference time 2e9 converts
exactly to 1.75e9 with the conversion warning, and is then found
expired. -/
theorem C5_witness :
    (validate_cookie 2000000000 exC5w 0).fixedDict.expires =
      some 1750000000 ∧
    WarnMsg.msToSeconds 1750000000000 1750000000 ∈
      (validate_cookie 2000000000 exC5w 0).warnings ∧
    ErrMsg.expired ((2000000000 - 1750000000 : ℚ) / 3600) ∈
      (validate_cookie 2000000000 exC5w 0).errors ∧
    (validate_cookie 2000000000 exC5w 0).valid = false := by
  have hc : (10:ℚ)^10 < 1750000000000 := by norm_num
  have hq2 : (1750000000 : ℚ) =
      if (10:ℚ)^10 < 1750000000000 then (1750000000000 : ℚ) / 1000
      else 1750000000000 := by
    rw [if_pos hc]
    norm_num
  obtain ⟨h1, h2, h3, _⟩ :=
    C5_expiry_repair 2000000000 exC5w 0 1750000000000 1750000000 rfl hq2
  obtain ⟨h3a, h3b⟩ := h3 (by norm_num) (by norm_num)
  exact ⟨h1, h2 hc, h3a, h3b⟩

lemma repl_ne_empty (n : Nat) (c : Char) (h : 0 < n) :
    ((⟨List.replicate n c⟩ : String) == "") = false := by
  rw [beq_eq_false_iff_ne]
  intro hcontra
  have hd := congrArg String.data hcontra
  simp at hd
  omega

lemma repl_length (n : Nat) (c : Char) :
    (⟨List.replicate n c⟩ : String).length = n := by
  show (List.replicate n c).length = n
  exact List.length_replicate n c

lemma validate_simple_strings (now : ℚ) (na va : String)
    (hna : (na == "") = false) (hva : (va == "") = false) :
    (validate_cookie now (mkStrCookie na va) 0).valid = true ∧
    (validate_cookie now (mkStrCookie na va) 0).cookie_size =
      na.length + va.length ∧
    (validate_cookie now (mkStrCookie na va) 0).warnings =
      (if 4096 < na.length + va.length
       then [WarnMsg.oversize (na.length + va.length)] else []) := by
  have hreq : requiredErrors (mkStrCookie na va) = [] := by
    simp [requiredErrors, mkStrCookie, pyTruthyOpt, pyTruthy, hna, hva]
  have hsize : (validate_cookie now (mkStrCookie na va) 0).cookie_size =
      na.length + va.length := by
    rw [validate_cookie_size, validate_fixedDict, hreq]
    simp [mkStrCookie, pyStr]
  have hdomeq : (mkStrCookie na va).domain = some (.s "localhost") := rfl
  have hdom : pyTruthyOpt (mkStrCookie na va).domain = true := by
    rw [hdomeq]
    decide
  have hdw : normDomainWarns ((mkStrCookie na va).domain.getD (.s "")) = false := by
    rw [hdomeq]
    decide
  refine ⟨?_, hsize, ?_⟩
  · rw [validate_valid, validate_errors, hreq, hdom]
    simp [mkStrCookie, expiresRepair]
  · rw [validate_warnings, hsize, hdom, hdw]
    simp [mkStrCookie, pyTruthy, expiresRepair, sameSiteRepair,
      isBool, isStr, pyStr]

/-- Claim C6, amended: an oversized name-plus-value (beyond 4096) yields
the size message as a warning, while validity remains exactly emptiness
of the error list, so the size check never invalidates a record; no
name-length rule exists at all. -/
theorem C6_size_is_warning (now : ℚ) (c : Cookie) (i : Nat) :
    (4096 < (validate_cookie now c i).cookie_size →
      WarnMsg.oversize ((validate_cookie now c i).cookie_size) ∈
        (validate_cookie now c i).warnings) ∧
    ((validate_cookie now c i).valid =
      (validate_cookie now c i).errors.isEmpty) := by
  refine ⟨?_, rfl⟩
  intro h
  rw [validate_warnings]
  simp [h]

/-- Claim C6, counterexample: a record with a 2000-character name and a
3000-character value (size 5000, name beyond 1024) stays valid, and its
only warning is the size message: no size-limit error and no name-length
warning exist. -/
theorem C6_counterexample :
    (validate_cookie 0 exC6 0).valid = true ∧
    (validate_cookie 0 exC6 0).warnings = [WarnMsg.oversize 5000] := by
  have he : exC6 = mkStrCookie ⟨List.replicate 2000 'a'⟩ ⟨List.replicate 3000 'b'⟩ :=
    rfl
  obtain ⟨h1, h2, h3⟩ := validate_simple_strings 0
    ⟨List.replicate 2000 'a'⟩ ⟨List.replicate 3000 'b'⟩
    (repl_ne_empty 2000 'a' (by norm_num))
    (repl_ne_empty 3000 'b' (by norm_num))
  rw [repl_length, repl_length] at h3
  rw [he]
  exact ⟨h1, by rw [h3]; norm_num⟩

/-- Claim C6, witness for the amended statement at the same record. -/
theorem C6_witness :
    WarnMsg.oversize ((validate_cookie 0 exC6 0).cookie_size) ∈
      (validate_cookie 0 exC6 0).warnings := by
  have he : exC6 = mkStrCookie ⟨List.replicate 2000 'a'⟩ ⟨List.replicate 3000 'b'⟩ :=
    rfl
  obtain ⟨h1, h2, h3⟩ := validate_simple_strings 0
    ⟨List.replicate 2000 'a'⟩ ⟨List.replicate 3000 'b'⟩
    (repl_ne_empty 2000 'a' (by norm_num))
    (repl_ne_empty 3000 'b' (by norm_num))
  rw [repl_length, repl_length] at h2
  exact (C6_size_is_warning 0 exC6 0).1 (by rw [he, h2]; norm_num)

/-- A validation result carries a fixed record exactly when it is valid. -/
lemma validate_fixed_isSome (now : ℚ) (c : Cookie) (i : Nat) :
    (validate_cookie now c i).fixed.isSome = (validate_cookie now c i).valid := by
  rw [validate_fixed, validate_valid]
  rcases h : (validate_cookie now c i).errors.isEmpty <;> simp [h]

/-- Every result of a validation batch carries a fixed record exactly
when it is valid. -/
lemma validate_batch_isSome (now : ℚ) :
    ∀ (l : List Cookie) (i : Nat) r, r ∈ validate_batch now i l →
      r.fixed.isSome = r.valid := by
  intro l
  induction l with
  | nil => intro i r hr; cases hr
  | cons c rest ih =>
    intro i r hr
    rcases hr with _ | hr
    · exact validate_fixed_isSome now c i
    · exact ih (i + 1) r (by assumption)

/-- A validation batch has one result per record. -/
lemma validate_batch_length (now : ℚ) :
    ∀ (l : List Cookie) (i : Nat),
      (validate_batch now i l).length = l.length := by
  intro l
  induction l with
  | nil => intro i; rfl
  | cons c rest ih => intro i; simp [validate_batch, ih (i + 1)]

/-- Counting the valid results equals the length of the extracted
fixed-record list, whenever fixed-presence tracks validity. -/
lemma length_filterMap_fixed :
    ∀ (L : List ValidationResult),
      (∀ r ∈ L, r.fixed.isSome = r.valid) →
      (L.filterMap (fun r => r.fixed)).length = L.countP (fun r => r.valid) := by
  intro L
  induction L with
  | nil => intro _; rfl
  | cons r rest ih =>
    intro h
    have hr := h r (List.mem_cons_self r rest)
    have hrest := ih fun x hx => h x (List.mem_cons_of_mem r hx)
    rcases hv : r.valid
    · rw [hv] at hr
      rcases hfix : r.fixed with _ | f
      · simp [List.filterMap_cons, hfix, List.countP_cons, hv, hrest]
      · rw [hfix] at hr
        simp at hr
    · rw [hv] at hr
      rcases hfix : r.fixed with _ | f
      · rw [hfix] at hr
        simp at hr
      · simp [List.filterMap_cons, hfix, List.countP_cons, hv, hrest]

/-- Counting the invalid results complements counting the valid ones. -/
lemma length_filter_invalid :
    ∀ (L : List ValidationResult),
      (L.filter (fun r => !r.valid)).length + L.countP (fun r => r.valid) =
        L.length := by
  intro L
  induction L with
  | nil => rfl
  | cons r rest ih =>
    rcases hv : r.valid <;>
      simp [List.filter_cons, List.countP_cons, hv] <;> omega

/-- The injection phase never reports more successes than cookies. -/
lemma injectPhase_le (inj : Nat → Bool) :
    ∀ (l : List FixedCookie) (i : Nat), (injectPhase inj i l).1 ≤ l.length := by
  intro l
  induction l with
  | nil => intro i; exact Nat.le_refl 0
  | cons c rest ih =>
    intro i
    simp only [injectPhase]
    rcases h : inj i <;> simp [h]
    · exact Nat.le_succ_of_le (ih (i + 1))
    · exact ih (i + 1)

/-- Claim C7: in every report of the cookie injector the valid count is
the number of records that pass validation, the injected count never
exceeds it, and the failed count is the processed count minus the
injected count, on both the early-return path (no valid records) and the
normal path. -/
theorem C7_report_counts (now : ℚ) (inj : Nat → Bool) (cookies : List Cookie) :
    (inject_cookies_with_report now inj cookies).cookies_processed =
      cookies.length ∧
    (inject_cookies_with_report now inj cookies).cookies_valid =
      (validate_batch now 0 cookies).countP (fun r => r.valid) ∧
    (inject_cookies_with_report now inj cookies).cookies_injected ≤
      (inject_cookies_with_report now inj cookies).cookies_valid ∧
    (inject_cookies_with_report now inj cookies).cookies_failed =
      (inject_cookies_with_report now inj cookies).cookies_processed -
        (inject_cookies_with_report now inj cookies).cookies_injected := by
  have hsome := validate_batch_isSome now cookies 0
  have hlen := validate_batch_length now cookies 0
  have hcnt := length_filterMap_fixed (validate_batch now 0 cookies) hsome
  have hinv := length_filter_invalid (validate_batch now 0 cookies)
  have hple := injectPhase_le inj
    ((validate_batch now 0 cookies).filterMap (fun r => r.fixed)) 0
  rcases hE : ((validate_batch now 0 cookies).filterMap
      (fun r => r.fixed)).isEmpty
  · refine ⟨?_, ?_, ?_, ?_⟩ <;>
      simp only [inject_cookies_with_report, hE, Bool.false_eq_true,
        if_false]
    · rw [hcnt]
    · exact hple
    · omega
  · have hnil : (validate_batch now 0 cookies).filterMap (fun r => r.fixed) = [] :=
      List.isEmpty_iff.mp hE
    have h0 : (validate_batch now 0 cookies).countP (fun r => r.valid) = 0 := by
      rw [← hcnt, hnil]
      rfl
    have hIlen : ((validate_batch now 0 cookies).filter
        (fun r => !r.valid)).length = cookies.length := by
      omega
    refine ⟨?_, ?_, ?_, ?_⟩ <;>
      simp only [inject_cookies_with_report, hE, if_true]
    · omega
    · exact Nat.le_refl 0
    · omega

/-- The code point after ASCII lower-casing. -/
lemma toNat_pyLowerChar_of (c : Char) (h : 65 ≤ c.toNat ∧ c.toNat ≤ 90) :
    (pyLowerChar c).toNat = c.toNat + 32 := by
  unfold pyLowerChar
  rw [if_pos h]
  unfold Char.ofNat
  rw [dif_pos (by unfold Nat.isValidChar; omega)]
  rfl

/-- ASCII lower-casing is idempotent on characters. -/
lemma pyLowerChar_idem (c : Char) :
    pyLowerChar (pyLowerChar c) = pyLowerChar c := by
  by_cases h : 65 ≤ c.toNat ∧ c.toNat ≤ 90
  · have ht := toNat_pyLowerChar_of c h
    unfold pyLowerChar
    rw [if_neg (by rw [show (if 65 ≤ c.toNat ∧ c.toNat ≤ 90 then
        Char.ofNat (c.toNat + 32) else c) = pyLowerChar c from rfl, ht]; omega)]
  · unfold pyLowerChar
    rw [if_neg h, if_neg h]

/-- A character with code point at least 65 is not ASCII whitespace. -/
lemma isWs_false_of_ge (c : Char) (h : 65 ≤ c.toNat) : isWs c = false := by
  have hne : ∀ d : Char, d.toNat < 65 → (c == d) = false := by
    intro d hd
    rw [beq_eq_false_iff_ne]
    intro he
    rw [he] at h
    omega
  simp [isWs, hne ' ' (by decide), hne '\t' (by decide), hne '\n' (by decide),
    hne '\r' (by decide), hne '\x0b' (by decide), hne '\x0c' (by decide)]

/-- ASCII lower-casing does not change whether a character is
whitespace. -/
lemma isWs_pyLowerChar (c : Char) : isWs (pyLowerChar c) = isWs c := by
  by_cases h : 65 ≤ c.toNat ∧ c.toNat ≤ 90
  · rw [isWs_false_of_ge _ (by rw [toNat_pyLowerChar_of c h]; omega),
      isWs_false_of_ge _ (by omega)]
  · unfold pyLowerChar
    rw [if_neg h]

/-- The head of a dropWhile result fails the predicate. -/
lemma head?_dropWhile (p : Char → Bool) (l : List Char) (c : Char)
    (h : (l.dropWhile p).head? = some c) : p c = false := by
  have := List.head?_dropWhile_not p l
  rw [h] at this
  exact this

/-- dropWhile is the identity when the head already fails the
predicate. -/
lemma dropWhile_eq_self_of_head (p : Char → Bool) (l : List Char)
    (h : ∀ c, l.head? = some c → p c = false) : l.dropWhile p = l := by
  rcases l with _ | ⟨a, l⟩
  · rfl
  · rw [List.dropWhile_cons, h a rfl]
    simp

/-- dropWhile is idempotent. -/
lemma dropWhile_dropWhile (p : Char → Bool) (l : List Char) :
    (l.dropWhile p).dropWhile p = l.dropWhile p :=
  dropWhile_eq_self_of_head p _ (head?_dropWhile p l)

/-- The head surviving a right strip was the head before it. -/
lemma head?_rstripWs (m : List Char) (c : Char)
    (h : (rstripWs m).head? = some c) : m.head? = some c := by
  unfold rstripWs at h
  rw [List.head?_reverse] at h
  obtain ⟨pre, hpre⟩ := List.dropWhile_suffix (l := m.reverse) isWs
  rw [← List.getLast?_reverse m, ← hpre, List.getLast?_append, h]
  rfl

/-- The last character surviving a right strip is not whitespace. -/
lemma getLast?_rstripWs (m : List Char) (c : Char)
    (h : (rstripWs m).getLast? = some c) : isWs c = false := by
  unfold rstripWs at h
  rw [List.getLast?_reverse] at h
  exact head?_dropWhile isWs m.reverse c h

/-- The head of a stripped list is not whitespace. -/
lemma strip_head_not_ws (l : List Char) (c : Char)
    (h : (rstripWs (lstripWs l)).head? = some c) : isWs c = false :=
  head?_dropWhile isWs l c (head?_rstripWs (lstripWs l) c h)

/-- Stripping is the identity when both edges are already clean. -/
lemma strip_noop (l : List Char)
    (hh : ∀ c, l.head? = some c → isWs c = false)
    (hl : ∀ c, l.getLast? = some c → isWs c = false) :
    rstripWs (lstripWs l) = l := by
  have h1 : lstripWs l = l := dropWhile_eq_self_of_head isWs l hh
  rw [h1]
  unfold rstripWs
  rw [dropWhile_eq_self_of_head isWs l.reverse
    (fun c hc => hl c (by rwa [List.head?_reverse] at hc))]
  exact List.reverse_reverse l

/-- Characters of a lower-cased list are fixed by lower-casing. -/
lemma mem_map_pyLowerChar_fixed (l : List Char) (c : Char)
    (h : c ∈ l.map pyLowerChar) : pyLowerChar c = c := by
  obtain ⟨a, _, ha⟩ := List.mem_map.mp h
  rw [← ha]
  exact pyLowerChar_idem a

/-- Lower-casing a list of already lower-cased characters changes
nothing. -/
lemma map_pyLowerChar_fixed (l : List Char)
    (h : ∀ c ∈ l, pyLowerChar c = c) : l.map pyLowerChar = l := by
  rw [List.map_congr_left h]
  exact List.map_id l

/-- Data of a lower-cased string. -/
lemma pyLower_data (s : String) : (pyLower s).data = s.data.map pyLowerChar := rfl

/-- Data of a stripped string. -/
lemma pyStrip_data (s : String) :
    (pyStrip s).data = rstripWs (lstripWs s.data) := rfl

/-- Data of a dot-lstripped string. -/
lemma lstripDots_data (s : String) :
    (lstripDots s).data = s.data.dropWhile (· == '.') := rfl

/-- The head of a stripped-then-lowered string is not whitespace. -/
lemma ds_head_not_ws (s0 : String) (c : Char)
    (h : (pyLower (pyStrip s0)).data.head? = some c) : isWs c = false := by
  rw [pyLower_data, List.head?_map] at h
  rcases h2 : (pyStrip s0).data.head? with _ | a
  · rw [h2] at h
    cases h
  · rw [h2] at h
    have : c = pyLowerChar a := by
      simpa using h.symm
    rw [this, isWs_pyLowerChar]
    exact strip_head_not_ws s0.data a (by rw [← pyStrip_data]; exact h2)

/-- The last character of a stripped-then-lowered string is not
whitespace. -/
lemma ds_last_not_ws (s0 : String) (c : Char)
    (h : (pyLower (pyStrip s0)).data.getLast? = some c) : isWs c = false := by
  rw [pyLower_data, List.getLast?_map] at h
  rcases h2 : (pyStrip s0).data.getLast? with _ | a
  · rw [h2] at h
    cases h
  · rw [h2] at h
    have : c = pyLowerChar a := by
      simpa using h.symm
    rw [this, isWs_pyLowerChar]
    exact getLast?_rstripWs (lstripWs s0.data) a
      (by rw [← pyStrip_data]; exact h2)

/-- Every character of a stripped-then-lowered string is fixed by
lower-casing. -/
lemma ds_chars_fixed (s0 : String) (c : Char)
    (h : c ∈ (pyLower (pyStrip s0)).data) : pyLowerChar c = c :=
  mem_map_pyLowerChar_fixed _ c (by rwa [pyLower_data] at h)

/-- The clean domain, a dot-dropWhile of the normalised string, keeps the
original last character when nonempty. -/
lemma dropWhile_getLast? (p : Char → Bool) (l : List Char) (c : Char)
    (h : (l.dropWhile p).getLast? = some c) : l.getLast? = some c := by
  obtain ⟨pre, hpre⟩ := List.dropWhile_suffix (l := l) p
  rw [← hpre, List.getLast?_append, h]
  rfl

/-- The branch-free description of the domain repair. -/
lemma normDomain_eq (v : PyVal) :
    normDomain v =
      (if (startsWithDot (pyLower (pyStrip (pyStr v))) ||
           decide (1 ≤ countDots (lstripDots (pyLower (pyStrip (pyStr v)))))) = true
       then "." ++ lstripDots (pyLower (pyStrip (pyStr v)))
       else lstripDots (pyLower (pyStrip (pyStr v)))) := rfl

/-- A string whose data starts with a dot starts with a dot. -/
lemma startsWithDot_cons (c : Char) (l : List Char) :
    startsWithDot ⟨c :: l⟩ = (c == '.') := rfl

/-- Stripping then lowering a string whose characters are fixed by
lower-casing and whose edges are not whitespace changes nothing. -/
lemma strip_lower_noop (d : String)
    (hfix : ∀ c ∈ d.data, pyLowerChar c = c)
    (hh : ∀ c, d.data.head? = some c → isWs c = false)
    (hl : ∀ c, d.data.getLast? = some c → isWs c = false) :
    pyLower (pyStrip d) = d := by
  have hstrip : pyStrip d = d := by
    rw [String.ext_iff, pyStrip_data]
    exact strip_noop d.data hh hl
  rw [hstrip, String.ext_iff, pyLower_data]
  exact map_pyLowerChar_fixed d.data hfix

/-- Data of a string with a dot put in front. -/
lemma dot_append_data (s : String) : ("." ++ s).data = '.' :: s.data := by
  rw [String.data_append]
  rfl

/-- The dot test in terms of the data. -/
lemma startsWithDot_eq (s : String) :
    startsWithDot s =
      (match s.data with
       | [] => false
       | c :: _ => (c == '.')) := rfl

/-- Dropping leading dots from a string that does not start with one
changes nothing. -/
lemma lstripDots_eq_self (s : String) (h : startsWithDot s = false) :
    lstripDots s = s := by
  rw [String.ext_iff, lstripDots_data]
  apply dropWhile_eq_self_of_head
  intro c hc
  rcases hd : s.data with _ | ⟨a, l⟩
  · rw [hd] at hc
    cases hc
  · rw [hd] at hc
    have hca : a = c := by
      simpa using hc
    rw [startsWithDot_eq, hd] at h
    rw [← hca]
    exact h

/-- The domain repair of validate_cookie is idempotent: re-running it on
its own output reproduces the output exactly. -/
lemma normDomain_idem (v : PyVal) :
    normDomain (PyVal.s (normDomain v)) = normDomain v := by
  have hclean_data : (lstripDots (pyLower (pyStrip (pyStr v)))).data =
      (pyLower (pyStrip (pyStr v))).data.dropWhile (· == '.') :=
    lstripDots_data _
  have hclean_last : ∀ c,
      (lstripDots (pyLower (pyStrip (pyStr v)))).data.getLast? = some c →
      isWs c = false := by
    intro c hc
    rw [hclean_data] at hc
    exact ds_last_not_ws (pyStr v) c (dropWhile_getLast? _ _ c hc)
  have hclean_fixed : ∀ c,
      c ∈ (lstripDots (pyLower (pyStrip (pyStr v)))).data →
      pyLowerChar c = c := by
    intro c hc
    rw [hclean_data] at hc
    exact ds_chars_fixed (pyStr v) c ((List.dropWhile_sublist _).mem hc)
  rw [normDomain_eq v]
  rcases hb : (startsWithDot (pyLower (pyStrip (pyStr v))) ||
      decide (1 ≤ countDots (lstripDots (pyLower (pyStrip (pyStr v)))))) with _ | _
  · -- bare branch: result is the clean part, which equals the lowered strip
    rw [if_neg Bool.false_ne_true]
    rw [Bool.or_eq_false_iff] at hb
    obtain ⟨hnd', hcnt'⟩ := hb
    have hcnt : countDots (lstripDots (pyLower (pyStrip (pyStr v)))) < 1 := by
      have := of_decide_eq_false hcnt'
      omega
    have hcl : lstripDots (pyLower (pyStrip (pyStr v))) =
        pyLower (pyStrip (pyStr v)) := lstripDots_eq_self _ hnd'
    rw [hcl]
    have hnoop : pyLower (pyStrip (pyLower (pyStrip (pyStr v)))) =
        pyLower (pyStrip (pyStr v)) :=
      strip_lower_noop _ (ds_chars_fixed (pyStr v))
        (ds_head_not_ws (pyStr v)) (ds_last_not_ws (pyStr v))
    rw [normDomain_eq]
    have hps : pyStr (PyVal.s (pyLower (pyStrip (pyStr v)))) =
        pyLower (pyStrip (pyStr v)) := rfl
    rw [hps, hnoop, hcl, hnd']
    have hside : ¬ ((false ||
        decide (1 ≤ countDots (pyLower (pyStrip (pyStr v))))) = true) := by
      simp only [Bool.false_or, decide_eq_true_eq]
      rw [← hcl]
      omega
    rw [if_neg hside]
  · -- dotted branch: result is dot plus clean
    rw [if_pos rfl]
    rw [normDomain_eq]
    have hps : pyStr (PyVal.s ("." ++ lstripDots (pyLower (pyStrip (pyStr v))))) =
        "." ++ lstripDots (pyLower (pyStrip (pyStr v))) := rfl
    rw [hps]
    have hdata : ("." ++ lstripDots (pyLower (pyStrip (pyStr v)))).data =
        '.' :: (lstripDots (pyLower (pyStrip (pyStr v)))).data :=
      dot_append_data _
    have hnoop : pyLower (pyStrip
        ("." ++ lstripDots (pyLower (pyStrip (pyStr v))))) =
        "." ++ lstripDots (pyLower (pyStrip (pyStr v))) := by
      apply strip_lower_noop
      · intro c hc
        rw [hdata] at hc
        rcases hc with _ | hc
        · decide
        · exact hclean_fixed c (by assumption)
      · intro c hc
        rw [hdata] at hc
        have : c = '.' := by
          simpa using hc.symm
        rw [this]
        decide
      · intro c hc
        rw [hdata, List.getLast?_cons] at hc
        have hcg : c = (lstripDots (pyLower (pyStrip (pyStr v)))).data.getLast?.getD '.' := by
          simpa using hc.symm
        rcases hg : (lstripDots (pyLower (pyStrip (pyStr v)))).data.getLast? with _ | a
        · rw [hg] at hcg
          simp at hcg
          rw [hcg]
          decide
        · rw [hg] at hcg
          simp at hcg
          rw [hcg]
          exact hclean_last a hg
    rw [hnoop]
    have hswd : startsWithDot
        ("." ++ lstripDots (pyLower (pyStrip (pyStr v)))) = true := by
      rw [startsWithDot_eq, hdata]
      rfl
    have hcl2 : lstripDots
        ("." ++ lstripDots (pyLower (pyStrip (pyStr v)))) =
        lstripDots (pyLower (pyStrip (pyStr v))) := by
      rw [String.ext_iff, lstripDots_data, hdata, List.dropWhile_cons]
      rw [if_pos (by decide)]
      rw [hclean_data]
      exact dropWhile_dropWhile _ _
    rw [hswd, hcl2]
    rw [if_pos (by simp)]

/-- The decimal rendering of a natural number is never empty. -/
lemma natStr_ne_empty (n : Nat) : natStr n ≠ "" := by
  intro h
  have hd : natDigitsAux (n + 1) n = [] := congrArg String.data h
  rw [show natDigitsAux (n + 1) n =
    (if n < 10 then [Nat.digitChar n]
     else natDigitsAux n (n / 10) ++ [Nat.digitChar (n % 10)]) from rfl] at hd
  split at hd
  · cases hd
  · exact absurd hd (by simp)

/-- The decimal rendering of an integer is never empty. -/
lemma intStr_ne_empty (i : Int) : intStr i ≠ "" := by
  rcases i with n | n
  · exact natStr_ne_empty n
  · intro h
    have hd := congrArg String.data h
    rw [show intStr (Int.negSucc n) = "-" ++ natStr (n + 1) from rfl,
      String.data_append] at hd
    simp at hd

/-- The rendering of a rational is never empty. -/
lemma numToStr_ne_empty (q : ℚ) : numToStr q ≠ "" := by
  intro h
  have hd := congrArg String.data h
  rw [numToStr, String.data_append] at hd
  rw [List.append_eq_nil] at hd
  exact intStr_ne_empty q.num (by rw [String.ext_iff]; exact hd.1)

/-- The Python str of a truthy value is a nonempty string. -/
lemma pyStr_beq_empty (v : PyVal) (h : pyTruthy v = true) :
    (pyStr v == "") = false := by
  rw [beq_eq_false_iff_ne]
  rcases v with s | q | b | _ | _
  · intro hc
    rw [pyStr] at hc
    rw [pyTruthy, hc] at h
    simp at h
  · exact numToStr_ne_empty q
  · rcases b with _ | _
    · rw [pyTruthy] at h
      cases h
    · decide
  · rw [pyTruthy] at h
    cases h
  · decide

/-- Boolean repair of a genuine boolean is the boolean itself. -/
lemma boolRepair_b (x : Bool) : boolRepair (.b x) = x := by
  rcases x with _ | _ <;> rfl

/-- A truthy optional dict entry has a truthy payload. -/
lemma pyTruthy_getD (o : Option PyVal) (h : pyTruthyOpt o = true) :
    pyTruthy (o.getD (.s "")) = true := by
  rcases o with _ | v
  · cases h
  · exact h

/-- Values produced by the sameSite normalisation table are canonical. -/
lemma sameSiteNormalize_canonical (x nrm : String)
    (h : sameSiteNormalize x = some nrm) :
    nrm = "Lax" ∨ nrm = "Strict" ∨ nrm = "None" := by
  unfold sameSiteNormalize at h
  split_ifs at h <;> simp_all

/-- The sameSite entry of the fixed dict is canonical when present. -/
lemma sameSiteRepair_canonical (ss : Option PyVal) (s : String)
    (h : (sameSiteRepair ss).2.2 = some s) :
    s = "Lax" ∨ s = "Strict" ∨ s = "None" := by
  rcases ss with _ | v
  · simp [sameSiteRepair] at h
  · simp only [sameSiteRepair] at h
    rcases hp : pyTruthy v
    · rw [hp] at h
      simp at h
    · rw [hp] at h
      simp only [if_true] at h
      by_cases hc : pyStr v = "Lax" ∨ pyStr v = "Strict" ∨ pyStr v = "None"
      · rw [if_pos hc] at h
        have : pyStr v = s := by simpa using h
        rw [← this]
        exact hc
      · rw [if_neg hc] at h
        rcases hn : sameSiteNormalize (pyLower (pyStr v)) with _ | nrm
        · rw [hn] at h
          simp at h
        · rw [hn] at h
          have : nrm = s := by simpa using h
          rw [← this]
          exact sameSiteNormalize_canonical _ nrm hn

/-- Re-running the sameSite repair on a canonical value keeps it. -/
lemma sameSiteRepair_canon_input (s : String)
    (hs : s = "Lax" ∨ s = "Strict" ∨ s = "None") :
    sameSiteRepair (some (.s s)) = ([], [], some s) := by
  have hne : pyTruthy (.s s) = true := by
    rcases hs with h | h | h <;> subst h <;> decide
  simp only [sameSiteRepair]
  rw [hne]
  simp only [if_true]
  rw [if_pos (by simpa [pyStr] using hs)]
  rfl

/-- When the expiry repair kept a value and recorded no error, the value
is not a positive past timestamp. -/
lemma expiresRepair_fixed_inv (now : ℚ) (e : Option PyVal) (q : ℚ)
    (hq : (expiresRepair now e).2.2.2 = some q)
    (he : (expiresRepair now e).1 = []) :
    ¬(0 < q ∧ q < now) := by
  intro hcon
  rcases e with _ | v
  · simp [expiresRepair] at hq
  rcases v with s | q0 | b | _ | _
  · simp [expiresRepair, numLike] at hq
  · rw [expiresRepair_num] at hq he
    have hq' : (if (10:ℚ)^10 < q0 then q0 / 1000 else q0) = q := by
      simpa using hq
    rw [hq'] at he
    rw [if_pos hcon] at he
    cases he
  · rcases b with _ | _
    · have h1 : ¬((10:ℚ)^10 < (0:ℚ)) := by norm_num
      simp only [expiresRepair, numLike] at hq
      simp [h1] at hq
      rw [← hq] at hcon
      exact absurd hcon.1 (lt_irrefl 0)
    · have h1 : ¬((10:ℚ)^10 < (1:ℚ)) := by norm_num
      simp only [expiresRepair, numLike] at hq he
      simp [h1] at hq he
      rw [← hq] at hcon
      exact absurd hcon.2 (not_lt.mpr he)
  · simp [expiresRepair] at hq
  · simp [expiresRepair, numLike] at hq

/-- Re-running the expiry repair on a kept value in the seconds range at
the same reference time records nothing and keeps the value. -/
lemma expiresRepair_second_run (now q : ℚ) (hle : q ≤ (10:ℚ)^10)
    (hnb : ¬(0 < q ∧ q < now)) :
    expiresRepair now (some (.n q)) = ([], [], [], some q) := by
  rw [expiresRepair_num]
  have hc : ¬((10:ℚ)^10 < q) := not_lt.mpr hle
  simp [hc, hnb]

/-- Inversion of the fixed field: a present fixed record means an empty
error list and equality with the built dict. -/
lemma validate_fixed_some (now : ℚ) (c : Cookie) (i : Nat) (f : FixedCookie)
    (hf : (validate_cookie now c i).fixed = some f) :
    (validate_cookie now c i).errors = [] ∧
    f = (validate_cookie now c i).fixedDict := by
  rw [validate_fixed] at hf
  rcases h : (validate_cookie now c i).errors.isEmpty
  · rw [h] at hf
    simp at hf
  · rw [h] at hf
    simp at hf
    exact ⟨List.isEmpty_iff.mp h, hf.symm⟩

/-- An empty required-field check means truthy name and value. -/
lemma requiredErrors_nil (c : Cookie) (h : requiredErrors c = []) :
    pyTruthyOpt c.name = true ∧ pyTruthyOpt c.value = true := by
  unfold requiredErrors at h
  rcases h1 : pyTruthyOpt c.name
  · rw [h1] at h
    simp at h
  · rcases h2 : pyTruthyOpt c.value
    · rw [h1, h2] at h
      simp at h
    · exact ⟨rfl, rfl⟩

/-- Claim C9, amended: normalization at a fixed reference time is
idempotent for every record whose fixed expiry (if any) is at most 1e10
and whose fixed domain is nonempty: revalidating the fixed record
reproduces it exactly, field for field.  (Both side conditions are
forced: a millisecond expiry above 1e13 is divided by 1000 on every run,
and a whitespace-only domain normalises to the empty string, which the
second run rejects as missing.) -/
theorem C9_idempotent (now : ℚ) (c : Cookie) (i j : Nat) (f : FixedCookie)
    (hf : (validate_cookie now c i).fixed = some f)
    (hdome : ∀ s, f.domain = some s → s ≠ "")
    (hexp : ∀ q, f.expires = some q → q ≤ (10:ℚ)^10) :
    (validate_cookie now (fixedToCookie f) j).fixed = some f := by
  obtain ⟨herr, hfd⟩ := validate_fixed_some now c i f hf
  rw [validate_errors] at herr
  obtain ⟨hAB, hC⟩ := List.append_eq_nil.mp herr
  obtain ⟨hA, hB⟩ := List.append_eq_nil.mp hAB
  obtain ⟨hnamet, hvaluet⟩ := requiredErrors_nil c hA
  have hdomt : pyTruthyOpt c.domain = true := by
    rcases h : pyTruthyOpt c.domain
    · rw [h] at hB
      simp at hB
    · rfl
  have hAe : (requiredErrors c).isEmpty = true := by
    rw [hA]
    rfl
  -- the fields of f
  have hfname : f.name = some (pyStr (c.name.getD (.s ""))) := by
    rw [hfd, validate_fixedDict]
    simp [hAe]
  have hfvalue : f.value = some (pyStr (c.value.getD (.s ""))) := by
    rw [hfd, validate_fixedDict]
    simp [hAe]
  have hfdomain : f.domain = some (normDomain (c.domain.getD (.s ""))) := by
    rw [hfd, validate_fixedDict]
    simp [hdomt]
  have hfexpires : f.expires = (expiresRepair now c.expires).2.2.2 := by
    rw [hfd, validate_fixedDict]
  have hfsameSite : f.sameSite = (sameSiteRepair c.sameSite).2.2 := by
    rw [hfd, validate_fixedDict]
  have hfpath_ne : (f.path == "") = false := by
    rw [hfd, validate_fixedDict]
    simp only []
    rcases hpb : (!pyTruthy (c.path.getD (.s "/")) ||
        !isStr (c.path.getD (.s "/")))
    · rw [if_neg Bool.false_ne_true]
      rw [Bool.or_eq_false_iff] at hpb
      obtain ⟨hp1, _⟩ := hpb
      rw [Bool.not_eq_false'] at hp1
      exact pyStr_beq_empty _ hp1
    · rw [if_pos rfl]
      decide
  -- the fixed record read back as a cookie
  have hcname : (fixedToCookie f).name = some (.s (pyStr (c.name.getD (.s "")))) := by
    rw [fixedToCookie, hfname]
    rfl
  have hcvalue : (fixedToCookie f).value = some (.s (pyStr (c.value.getD (.s "")))) := by
    rw [fixedToCookie, hfvalue]
    rfl
  have hcdomain : (fixedToCookie f).domain = some (.s (normDomain (c.domain.getD (.s "")))) := by
    rw [fixedToCookie, hfdomain]
    rfl
  have hcpath : (fixedToCookie f).path = some (.s f.path) := rfl
  have hcho : (fixedToCookie f).httpOnly = some (.b f.httpOnly) := rfl
  have hcse : (fixedToCookie f).secure = some (.b f.secure) := rfl
  -- requirements pass on revalidation
  have hname2 : pyTruthyOpt (fixedToCookie f).name = true := by
    rw [hcname]
    show (!(pyStr (c.name.getD (.s "")) == "")) = true
    rw [pyStr_beq_empty _ (pyTruthy_getD _ hnamet)]
    rfl
  have hvalue2 : pyTruthyOpt (fixedToCookie f).value = true := by
    rw [hcvalue]
    show (!(pyStr (c.value.getD (.s "")) == "")) = true
    rw [pyStr_beq_empty _ (pyTruthy_getD _ hvaluet)]
    rfl
  have hreq2 : requiredErrors (fixedToCookie f) = [] := by
    unfold requiredErrors
    rw [hname2, hvalue2]
    rfl
  have hreq2e : (requiredErrors (fixedToCookie f)).isEmpty = true := by
    rw [hreq2]
    rfl
  have hdomne : normDomain (c.domain.getD (.s "")) ≠ "" :=
    hdome _ hfdomain
  have hdom2 : pyTruthyOpt (fixedToCookie f).domain = true := by
    rw [hcdomain]
    show (!(normDomain (c.domain.getD (.s "")) == "")) = true
    rw [beq_eq_false_iff_ne.mpr hdomne]
    rfl
  -- expires on revalidation
  have hexp2 : expiresRepair now (fixedToCookie f).expires =
      ([], [], [], f.expires) := by
    rw [fixedToCookie]
    simp only []
    rcases hfe : f.expires with _ | q
    · rfl
    · have hle := hexp q hfe
      have hnb := expiresRepair_fixed_inv now c.expires q
        (by rw [← hfexpires, hfe]) hC
      simpa using expiresRepair_second_run now q hle hnb
  -- sameSite on revalidation
  have hss2 : sameSiteRepair (fixedToCookie f).sameSite =
      ([], [], f.sameSite) := by
    rw [fixedToCookie]
    simp only []
    rcases hfs : f.sameSite with _ | s
    · rfl
    · have hcanon := sameSiteRepair_canonical c.sameSite s
        (by rw [← hfsameSite, hfs])
      simpa using sameSiteRepair_canon_input s hcanon
  -- path on revalidation
  have hpath2 : (!pyTruthy ((fixedToCookie f).path.getD (.s "/")) ||
      !isStr ((fixedToCookie f).path.getD (.s "/"))) = false := by
    rw [hcpath]
    show (!(!(f.path == "")) || !true) = false
    rw [hfpath_ne]
    rfl
  -- the revalidation errors are empty
  have herr2 : (validate_cookie now (fixedToCookie f) j).errors = [] := by
    rw [validate_errors, hreq2, hdom2, hexp2]
    rfl
  rw [validate_fixed, herr2]
  simp only [List.isEmpty_nil, if_true]
  -- the rebuilt dict equals f, field by field
  rw [validate_fixedDict]
  refine congrArg some ?_
  have e1 : (if (requiredErrors (fixedToCookie f)).isEmpty = true
      then some (pyStr ((fixedToCookie f).name.getD (.s ""))) else none) =
      f.name := by
    rw [if_pos hreq2e, hcname, hfname]
    rfl
  have e2 : (if (requiredErrors (fixedToCookie f)).isEmpty = true
      then some (pyStr ((fixedToCookie f).value.getD (.s ""))) else none) =
      f.value := by
    rw [if_pos hreq2e, hcvalue, hfvalue]
    rfl
  have e3 : (if pyTruthyOpt (fixedToCookie f).domain = true
      then some (normDomain ((fixedToCookie f).domain.getD (.s ""))) else none) =
      f.domain := by
    rw [if_pos hdom2, hcdomain, hfdomain]
    show some (normDomain (.s (normDomain (c.domain.getD (.s ""))))) = _
    rw [normDomain_idem]
  have e4 : (if (!pyTruthy ((fixedToCookie f).path.getD (.s "/")) ||
      !isStr ((fixedToCookie f).path.getD (.s "/")))
      then "/" else pyStr ((fixedToCookie f).path.getD (.s "/"))) = f.path := by
    rw [if_neg (by rw [hpath2]; exact Bool.false_ne_true), hcpath]
    rfl
  have e5 : boolRepair ((fixedToCookie f).httpOnly.getD (.b false)) =
      f.httpOnly := by
    rw [hcho]
    exact boolRepair_b f.httpOnly
  have e6 : boolRepair ((fixedToCookie f).secure.getD (.b false)) =
      f.secure := by
    rw [hcse]
    exact boolRepair_b f.secure
  have e7 : (expiresRepair now (fixedToCookie f).expires).2.2.2 = f.expires := by
    rw [hexp2]
  have e8 : (sameSiteRepair (fixedToCookie f).sameSite).2.2 = f.sameSite := by
    rw [hss2]
  rw [e1, e2, e3, e4, e5, e6, e7, e8]

/-- Claim C9, counterexample: the record with expiry 1e14 validates with
no errors to the fixed record exC9f whose expiry 1e11 is still above the
millisecond threshold; revalidating exC9f divides by 1000 again, so the
second fixed record carries expiry 1e8 and is not identical to exC9f. -/
theorem C9_counterexample :
    (validate_cookie 0 exC9 0).fixed = some exC9f ∧
    (validate_cookie 0 (fixedToCookie exC9f) 0).fixedDict.expires =
      some 100000000 ∧
    exC9f.expires = some 100000000000 ∧
    (100000000 : ℚ) ≠ 100000000000 := by
  have hc : (10:ℚ)^10 < 100000000000000 := by norm_num
  have hdiv : (100000000000000:ℚ) / 1000 = 100000000000 := by norm_num
  have hexp1 : expiresRepair 0 exC9.expires = ([], [.msToSeconds
      100000000000000 100000000000], [.dividedExpires], some 100000000000) := by
    rw [show exC9.expires = some (.n 100000000000000) from rfl,
      expiresRepair_num]
    rw [if_pos hc, if_pos hc, if_pos hc, hdiv]
    norm_num
  have herr : (validate_cookie 0 exC9 0).errors = [] := by
    rw [validate_errors, hexp1]
    decide
  refine ⟨?_, ?_, rfl, by norm_num⟩
  · rw [validate_fixed, herr]
    simp only [List.isEmpty_nil, if_true]
    refine congrArg some ?_
    rw [validate_fixedDict, hexp1]
    refine FixedCookie.ext ?_ ?_ ?_ ?_ ?_ ?_ ?_ ?_ <;> decide
  · have hc2 : (10:ℚ)^10 < 100000000000 := by norm_num
    have hdiv2 : (100000000000:ℚ) / 1000 = 100000000 := by norm_num
    rw [validate_fixedDict,
      show (fixedToCookie exC9f).expires = some (.n 100000000000) from rfl,
      expiresRepair_num]
    rw [if_pos hc2, hdiv2]

/-- Claim C9, witness for the amended statement: a cleanly validating
record whose fixed expiry is in the seconds range revalidates to the
identical fixed record. -/
theorem C9_witness :
    (validate_cookie 3 (fixedToCookie exC9wf) 0).fixed = some exC9wf :=
  C9_idempotent 3 exC9w 0 0 exC9wf (by decide)
    (fun s h => by
      have hs : s = ".grok.com" := by
        injection h with h2
        exact h2.symm
      rw [hs]
      decide)
    (fun q h => by
      have hq : q = 5 := by
        injection h with h2
        exact h2.symm
      rw [hq]
      norm_num)
